import Mathlib

/-!
Verification development for the parsing-fidelity core of the
14_EUFactForce repository.

The definitions below are shallow embeddings of the Python sources under
src/ingestion/parsing (scoring/utils.py, scoring/similarity.py,
scoring/content.py, quality_scoring.py, fidelity/common.py,
fidelity/constants.py, fidelity/gates.py, fidelity/routing.py,
fidelity/taxonomy.py).  Python floats are modelled as exact rationals;
Python str values are modelled as Lean String values (ASCII fragment for
case folding and whitespace, which is all the scored inputs use).
-/

/- ===================================================================
   Python string primitives
   =================================================================== -/

/-- Model of Python str.lower restricted to ASCII letters. -/
def pyLowerChar (c : Char) : Char :=
  if 'A' ≤ c ∧ c ≤ 'Z' then Char.ofNat (c.toNat + 32) else c

/-- Model of the Python regex class backslash-s and of str.strip whitespace
(ASCII fragment: space, tab, newline, carriage return, vertical tab, form feed). -/
def pyIsSpace (c : Char) : Bool :=
  c == ' ' || c == '\t' || c == '\n' || c == '\r' ||
  c == Char.ofNat 11 || c == Char.ofNat 12

/-- Model of Python str.strip: drop whitespace from both ends. -/
def pyStrip (l : List Char) : List Char :=
  ((l.dropWhile pyIsSpace).reverse.dropWhile pyIsSpace).reverse

/-- Model of the Python substring test (needle in haystack). -/
def occursIn (needle hay : List Char) : Bool :=
  (List.range (hay.length + 1)).any fun p =>
    (hay.drop p).take needle.length == needle

/-- Floor of a rational as an integer, computed with integer floor division. -/
def pyFloor (q : ℚ) : ℤ := q.num.fdiv (q.den : ℤ)

/-- Round-half-to-even to the nearest integer, as Python round does. -/
def roundHalfEven (q : ℚ) : ℤ :=
  let f := pyFloor q
  let frac := q - (f : ℚ)
  if frac < 1/2 then f
  else if (1 : ℚ)/2 < frac then f + 1
  else if f % 2 = 0 then f else f + 1

/-- Model of Python round(q, ndigits) on exact rationals. -/
def pyRound (ndigits : ℕ) (q : ℚ) : ℚ :=
  (roundHalfEven (q * ((10 : ℚ) ^ ndigits)) : ℚ) / ((10 : ℚ) ^ ndigits)

/- ===================================================================
   difflib.SequenceMatcher(None, a, b).ratio()

   Model of the CPython stdlib matcher used throughout the scoring
   code.  Only the quantity needed for ratio() is computed: the total
   size of the matching blocks.  isjunk is None everywhere in the
   sources, so the junk set is empty; the autojunk "popular" filter on
   the second sequence is modelled faithfully.
   =================================================================== -/

/-- Positions of character c in b, ascending (one entry of difflib b2j). -/
def charPositions (b : List Char) (c : Char) : List ℕ :=
  (b.enum.filter (fun p => p.2 == c)).map (fun p => p.1)

/-- difflib autojunk: in a second sequence of length at least 200, characters
occupying more than one percent of it are dropped from b2j. -/
def isPopular (b : List Char) (c : Char) : Bool :=
  decide (200 ≤ b.length) && decide (b.length / 100 + 1 < (charPositions b c).length)

/-- Lookup in b2j with the autojunk filter applied. -/
def b2jGet (b : List Char) (c : Char) : List ℕ :=
  if isPopular b c then [] else charPositions b c

/-- First-match association lookup with default 0, for the j2len rows. -/
def lookupD (m : List (ℕ × ℕ)) (k : ℕ) : ℕ :=
  (((m.find? (fun p => p.1 == k)).map (fun p => p.2)).getD 0)

/-- One row of the find_longest_match dynamic program: walk the ascending
b-positions of the current a-character, skipping those below blo and breaking
at bhi, extending runs recorded in the previous row. -/
def flmRow (i blo bhi : ℕ) (old : List (ℕ × ℕ)) :
    List ℕ → List (ℕ × ℕ) → ℕ × ℕ × ℕ → List (ℕ × ℕ) × (ℕ × ℕ × ℕ)
  | [], new, best => (new, best)
  | j :: js, new, best =>
    if j < blo then flmRow i blo bhi old js new best
    else if bhi ≤ j then (new, best)
    else
      let k := (if j = 0 then 0 else lookupD old (j - 1)) + 1
      let best' := if best.2.2 < k then (i + 1 - k, j + 1 - k, k) else best
      flmRow i blo bhi old js (new ++ [(j, k)]) best'

/-- Main loop of find_longest_match over the a-indices. -/
def flmMain (a b : List Char) (blo bhi : ℕ) :
    List ℕ → List (ℕ × ℕ) → ℕ × ℕ × ℕ → ℕ × ℕ × ℕ
  | [], _, best => best
  | i :: is, old, best =>
    let (new, best') := flmRow i blo bhi old (b2jGet b (a.getD i ' ')) [] best
    flmMain a b blo bhi is new best'

/-- Extension of the best block to the left over equal characters
(the junk set is empty, so only the plain extension loop of difflib acts). -/
def extendLeft (a b : List Char) (alo blo : ℕ) : ℕ → ℕ → ℕ
  | 0, _ => 0
  | bi + 1, bj =>
    if alo ≤ bi ∧ blo < bj ∧ a.getD bi ' ' = b.getD (bj - 1) ' ' then
      extendLeft a b alo blo bi (bj - 1) + 1
    else 0

/-- Extension of the best block to the right over equal characters. -/
def extendRight (a b : List Char) (ahi bhi : ℕ) : ℕ → ℕ → ℕ → ℕ
  | 0, _, _ => 0
  | fuel + 1, i, j =>
    if i < ahi ∧ j < bhi ∧ a.getD i ' ' = b.getD j ' ' then
      extendRight a b ahi bhi fuel (i + 1) (j + 1) + 1
    else 0

/-- difflib find_longest_match on the slices a-between-alo-ahi and
b-between-blo-bhi: dynamic program, then extension on both sides. -/
def findLongestMatch (a b : List Char) (alo ahi blo bhi : ℕ) : ℕ × ℕ × ℕ :=
  let r := flmMain a b blo bhi (List.range' alo (ahi - alo)) [] (alo, blo, 0)
  let e := extendLeft a b alo blo r.1 r.2.1
  let bi := r.1 - e
  let bj := r.2.1 - e
  let bs := r.2.2 + e
  let e2 := extendRight a b ahi bhi ahi (bi + bs) (bj + bs)
  (bi, bj, bs + e2)

/-- Total size of the matching blocks found by the recursive splitting of
get_matching_blocks.  The fuel argument dominates the recursion depth; it is
called with more fuel than the length of a, which the splitting never exceeds. -/
def matchTotal (a b : List Char) : ℕ → ℕ → ℕ → ℕ → ℕ → ℕ
  | 0, _, _, _, _ => 0
  | fuel + 1, alo, ahi, blo, bhi =>
    let r := findLongestMatch a b alo ahi blo bhi
    if r.2.2 = 0 then 0
    else
      matchTotal a b fuel alo r.1 blo r.2.1 + r.2.2 +
      matchTotal a b fuel (r.1 + r.2.2) ahi (r.2.1 + r.2.2) bhi

/-- Model of SequenceMatcher(None, a, b).ratio(): twice the matched size over
the total length, and 1 when both sequences are empty. -/
def ratioScore (a b : List Char) : ℚ :=
  let total := a.length + b.length
  if total = 0 then 1
  else (2 * (matchTotal a b (a.length + 1) 0 a.length 0 b.length) : ℚ) / (total : ℚ)

/- ===================================================================
   scoring/utils.py
   =================================================================== -/

/-- Status value FOUND of scoring/utils.py. -/
def FOUND : String := "found"

/-- Status value NOT_FOUND of scoring/utils.py. -/
def NOT_FOUND : String := "not_found"

/-- Status value NOT_APPLICABLE of scoring/utils.py. -/
def NOT_APPLICABLE : String := "n/a"

/-- DEFAULT_FUZZY_THRESHOLD of scoring/utils.py. -/
def default_fuzzy_threshold : ℚ := 3/4

/-- EARLY_EXIT_RATIO of scoring/utils.py (early break bound 0.95). -/
def early_exit_bound : ℚ := 19/20

/-- SLIDING_WINDOW_STEP_DIVISOR of scoring/utils.py. -/
def sliding_window_step_divisor : ℕ := 4

/-- METADATA_SEARCH_CHARS of scoring/utils.py. -/
def metadata_search_chars : ℕ := 5000

/-- MIN_SENTENCE_CHARS of scoring/utils.py. -/
def min_sentence_chars : ℕ := 30

/-- LENGTH_MISMATCH_RATIO of scoring/utils.py (relative bound 0.5). -/
def length_mismatch_bound : ℚ := 1/2

/-- REFERENCES_SEARCH_START_FRACTION of scoring/utils.py (0.40). -/
def references_search_start_fraction : ℚ := 2/5

/-- Length of the regex match of the figure-placeholder pattern
(open bracket, the word Figure, whitespace, digits, non-bracket run, close
bracket) at the head of the list, if it matches there. -/
def figMatchLen (l : List Char) : Option ℕ :=
  if l.take 7 = "[Figure".data then
    let r1 := l.drop 7
    let nws := (r1.takeWhile pyIsSpace).length
    if nws = 0 then none
    else
      let r2 := r1.drop nws
      let nd := (r2.takeWhile Char.isDigit).length
      if nd = 0 then none
      else
        let r3 := r2.drop nd
        let nnb := (r3.takeWhile (fun c => c != ']')).length
        match r3.drop nnb with
        | ']' :: _ => some (7 + nws + nd + nnb + 1)
        | _ => none
  else none

/-- First substitution of normalize_for_similarity: delete every
figure-placeholder match.  Fuel bounds the scan by the text length. -/
def removeFigures : ℕ → List Char → List Char
  | 0, l => l
  | _, [] => []
  | fuel + 1, c :: cs =>
    match figMatchLen (c :: cs) with
    | some n => removeFigures fuel ((c :: cs).drop n)
    | none => c :: removeFigures fuel cs

/-- Length of the multiline-anchored heading match (one to four hash marks
then at least one whitespace character, consumed greedily) at the head. -/
def headingMatchLen (l : List Char) : Option ℕ :=
  let nh := (l.takeWhile (fun c => c == '#')).length
  if 1 ≤ nh ∧ nh ≤ 4 then
    let nws := ((l.drop nh).takeWhile pyIsSpace).length
    if 1 ≤ nws then some (nh + nws) else none
  else none

/-- Second substitution of normalize_for_similarity: delete heading markers at
line starts.  The Bool tracks whether the scan position starts a line. -/
def removeHeadings : ℕ → Bool → List Char → List Char
  | 0, _, l => l
  | _, _, [] => []
  | fuel + 1, atStart, c :: cs =>
    if atStart then
      match headingMatchLen (c :: cs) with
      | some n =>
        removeHeadings fuel (((c :: cs).take n).getLast? == some '\n') ((c :: cs).drop n)
      | none => c :: removeHeadings fuel (c == '\n') cs
    else c :: removeHeadings fuel (c == '\n') cs

/-- Membership in the explicit superscript-digit class of the third
substitution of normalize_for_similarity. -/
def isSupDigit (c : Char) : Bool :=
  c.toNat == 0xB9 || c.toNat == 0xB2 || c.toNat == 0xB3 ||
  c.toNat == 0x2070 || (decide (0x2074 ≤ c.toNat) && decide (c.toNat ≤ 0x2079))

/-- Membership in the character class of the fourth substitution of
normalize_for_similarity: the codepoint range from 0x2070 to 0x2079, the
en dash, and the comma. -/
def isSupRangeDashComma (c : Char) : Bool :=
  (decide (0x2070 ≤ c.toNat) && decide (c.toNat ≤ 0x2079)) ||
  c.toNat == 0x2013 || c == ','

/-- Collapse whitespace runs to single spaces (the backslash-s-plus
substitution).  The Bool records whether the previous character was space. -/
def collapseWsGo : Bool → List Char → List Char
  | _, [] => []
  | prevSpace, c :: cs =>
    if pyIsSpace c then
      if prevSpace then collapseWsGo true cs
      else ' ' :: collapseWsGo true cs
    else c :: collapseWsGo false cs

/-- normalize_for_similarity of scoring/utils.py: remove figure placeholders,
heading markers and superscript citation characters, collapse whitespace,
strip, lowercase. -/
def normalize_for_similarity (t : String) : String :=
  let l1 := removeFigures t.data.length t.data
  let l2 := removeHeadings l1.length true l1
  let l3 := l2.filter (fun c => !isSupDigit c)
  let l4 := l3.filter (fun c => !isSupRangeDashComma c)
  String.mk ((pyStrip (collapseWsGo false l4)).map pyLowerChar)

/-- The four section markers searched by strip_references_section, in the
order the source tries them. -/
def referenceMarkers : List (List Char) :=
  ["\nreferences\n".data, "\n# references".data,
   "\nbibliography\n".data, "\n# bibliography".data]

/-- Model of Python str.rfind(marker, start): the largest position at or after
start where the marker occurs, if any. -/
def pyRfind (l m : List Char) (start : ℕ) : Option ℕ :=
  ((List.range (l.length + 1)).filter
    (fun p => decide (start ≤ p) && ((l.drop p).take m.length == m))).getLast?

/-- Search start of strip_references_section: int(len(text) * 0.40).  The
float product truncates to the exact floor of two fifths for every length. -/
def refsCutoff (n : ℕ) : ℕ := 2 * n / 5

/-- Marker loop of strip_references_section: return the stripped prefix at the
first marker found, otherwise fall through to the unchanged text. -/
def stripRefsGo (t : String) (lower : List Char) (cutoff : ℕ) :
    List (List Char) → String
  | [] => t
  | m :: ms =>
    match pyRfind lower m cutoff with
    | some p => String.mk (pyStrip (t.data.take p))
    | none => stripRefsGo t lower cutoff ms

/-- strip_references_section of scoring/utils.py. -/
def strip_references_section (t : String) : String :=
  stripRefsGo t (t.data.map pyLowerChar) (refsCutoff t.data.length) referenceMarkers

/-- Splitting scan of split_sentences: a whitespace run directly after a
sentence-final punctuation character separates two pieces. -/
def sentSplitGo : ℕ → List Char → Option Char → List Char → List (List Char)
  | _, acc, _, [] => [acc.reverse]
  | 0, acc, _, rest => [acc.reverse ++ rest]
  | fuel + 1, acc, prev, c :: cs =>
    if pyIsSpace c ∧ (prev = some '.' ∨ prev = some '!' ∨ prev = some '?') then
      acc.reverse :: sentSplitGo fuel [] none (cs.dropWhile pyIsSpace)
    else sentSplitGo fuel (c :: acc) (some c) cs

/-- split_sentences of scoring/utils.py: split after sentence-final
punctuation, strip the pieces, keep those of at least 30 characters. -/
def split_sentences (t : String) : List String :=
  ((sentSplitGo t.data.length [] none t.data).map
    (fun p => String.mk (pyStrip p))).filter
    (fun s => min_sentence_chars ≤ s.length)

/-- Candidate loop of best_match_ratio: skip large length mismatches, track
the best ratio, break once it reaches the early-exit bound. -/
def bmrGo (needle : List Char) : List (List Char) → ℚ → ℚ
  | [], best => best
  | hs :: rest, best =>
    if (((needle.length : ℤ) - (hs.length : ℤ)).natAbs : ℚ) >
        (needle.length : ℚ) * length_mismatch_bound then
      bmrGo needle rest best
    else
      let r := ratioScore needle hs
      let best' := if best < r then r else best
      if early_exit_bound ≤ best' then best' else bmrGo needle rest best'

/-- best_match_ratio of scoring/utils.py.  The haystack list and the haystack
set of the source always hold the same sentences; the set is modelled by list
membership. -/
def best_match_ratio (needle : String) (hay : List String) : ℚ :=
  if needle ∈ hay then 1 else bmrGo needle.data (hay.map String.data) 0

/-- Window loop of contains_fuzzy over the sliding starts. -/
def cfGo (nl hl : List Char) : List ℕ → ℚ → ℚ
  | [], best => best
  | i :: is, best =>
    let r := ratioScore nl ((hl.drop i).take nl.length)
    let best' := if best < r then r else best
    if early_exit_bound ≤ best' then best' else cfGo nl hl is best'

/-- contains_fuzzy of scoring/utils.py: exact case-insensitive containment
short-circuits; otherwise slide a needle-sized window with step a quarter of
the window, track the best ratio, round it to three digits. -/
def contains_fuzzy (haystack needle : String) (threshold : ℚ) : Bool × ℚ :=
  let nl := needle.data.map pyLowerChar
  let hl := haystack.data.map pyLowerChar
  if occursIn nl hl then (true, 1)
  else
    let window := nl.length
    let step := max 1 (window / sliding_window_step_divisor)
    let count := if hl.length + 1 ≤ window then 0
                 else (hl.length - window + 1 + step - 1) / step
    let best := cfGo nl hl (List.range' 0 count step) 0
    (decide (threshold ≤ best), pyRound 3 best)

/- ===================================================================
   scoring/similarity.py
   =================================================================== -/

/-- SENTENCE_MATCH_THRESHOLD of scoring/similarity.py (0.80). -/
def sentence_match_threshold : ℚ := 4/5

/-- MIN_MATCHED_SENTENCES of scoring/similarity.py. -/
def min_matched_sentences : ℕ := 3

/-- FIDELITY_WEIGHT_SIMILARITY of scoring/similarity.py (0.35). -/
def FIDELITY_WEIGHT_SIMILARITY : ℚ := 35/100

/-- FIDELITY_WEIGHT_RECALL of scoring/similarity.py (0.25). -/
def FIDELITY_WEIGHT_RECALL : ℚ := 25/100

/-- FIDELITY_WEIGHT_PRECISION of scoring/similarity.py (0.25). -/
def FIDELITY_WEIGHT_PRECISION : ℚ := 25/100

/-- FIDELITY_WEIGHT_ORDER of scoring/similarity.py (0.15). -/
def FIDELITY_WEIGHT_ORDER : ℚ := 15/100

/-- The private helper named with a leading underscore in
scoring/similarity.py: strip references, then normalize. -/
def prepare_body (t : String) : String :=
  normalize_for_similarity (strip_references_section t)

/-- compute_content_recall of scoring/similarity.py: weighted fraction of
reference body sentences recovered at or above the threshold. -/
def compute_content_recall (extracted reference : String) (threshold : ℚ) : ℚ :=
  let ref_sentences := split_sentences (prepare_body reference)
  if ref_sentences = [] then 1
  else
    let ext_sentences := split_sentences (prepare_body extracted)
    if ext_sentences = [] then 0
    else
      let total_score := (ref_sentences.map (fun s =>
        let best := best_match_ratio s ext_sentences
        if threshold ≤ best then best else 0)).sum
      pyRound 4 (total_score / (ref_sentences.length : ℚ))

/-- compute_content_precision of scoring/similarity.py: weighted fraction of
extraction body sentences matching the reference. -/
def compute_content_precision (extracted reference : String) (threshold : ℚ) : ℚ :=
  let ext_sentences := split_sentences (prepare_body extracted)
  if ext_sentences = [] then 0
  else
    let ref_sentences := split_sentences (prepare_body reference)
    if ref_sentences = [] then 0
    else
      let total_score := (ext_sentences.map (fun s =>
        let best := best_match_ratio s ref_sentences
        if threshold ≤ best then best else 0)).sum
      pyRound 4 (total_score / (ext_sentences.length : ℚ))

/-- Per-sentence search of compute_order_score: exact equality breaks at the
first equal extracted sentence with ratio 1; otherwise scan every extracted
sentence with the length-mismatch skip and keep the strictly best ratio
(position -1 when nothing was scored). -/
def orderBestMatch (ref_s : String) (ext_sentences : List String) : ℚ × ℤ :=
  if ref_s ∈ ext_sentences then
    (1, (ext_sentences.findIdx (fun s => s == ref_s) : ℤ))
  else
    (ext_sentences.enum.foldl (fun best p =>
      if (((ref_s.length : ℤ) - (p.2.length : ℤ)).natAbs : ℚ) >
          (ref_s.length : ℚ) * length_mismatch_bound then best
      else
        let r := ratioScore ref_s.data p.2.data
        if best.1 < r then (r, (p.1 : ℤ)) else best) ((0 : ℚ), (-1 : ℤ)))

/-- The matched_positions list built by compute_order_score: one pair of
reference index and extracted position per reference sentence whose best
match reaches the threshold. -/
def orderMatchedPositions (extracted reference : String) (threshold : ℚ) :
    List (ℕ × ℕ) :=
  let ref_sentences := split_sentences (prepare_body reference)
  let ext_sentences := split_sentences (prepare_body extracted)
  ref_sentences.enum.filterMap (fun p =>
    let m := orderBestMatch p.2 ext_sentences
    if threshold ≤ m.1 ∧ 0 ≤ m.2 then some (p.1, m.2.toNat) else none)

/-- All index pairs i strictly before j of a list, in loop order (the double
loop of the concordant-pair count). -/
def pairsOf {α : Type} : List α → List (α × α)
  | [] => []
  | x :: xs => (xs.map (fun y => (x, y))) ++ pairsOf xs

/-- Concordant fraction over the matched positions, with the guard the source
places on an empty pair list. -/
def concordantFraction (matched : List (ℕ × ℕ)) : ℚ :=
  let total_pairs := (pairsOf matched).length
  if 0 < total_pairs then
    (((pairsOf matched).countP (fun p => decide (p.1.2 < p.2.2))) : ℚ) /
      (total_pairs : ℚ)
  else 0

/-- compute_order_score of scoring/similarity.py. -/
def compute_order_score (extracted reference : String) (threshold : ℚ) :
    Option ℚ :=
  let ref_sentences := split_sentences (prepare_body reference)
  let ext_sentences := split_sentences (prepare_body extracted)
  if ref_sentences.length < min_matched_sentences ∨
     ext_sentences.length < min_matched_sentences then none
  else
    let matched := orderMatchedPositions extracted reference threshold
    if matched.length < min_matched_sentences then none
    else
      let coverage : ℚ := (matched.length : ℚ) / (ref_sentences.length : ℚ)
      some (pyRound 4 (concordantFraction matched * coverage))

/-- compute_fidelity_composite of scoring/similarity.py: the weighted sum of
the four sub-scores, an undefined order score contributing 0, rounded to four
digits. -/
def compute_fidelity_composite (text_similarity content_recall
    content_precision : ℚ) (order_score : Option ℚ) : ℚ :=
  let order := order_score.getD 0
  pyRound 4 (FIDELITY_WEIGHT_SIMILARITY * text_similarity +
    FIDELITY_WEIGHT_RECALL * content_recall +
    FIDELITY_WEIGHT_PRECISION * content_precision +
    FIDELITY_WEIGHT_ORDER * order)

/- ===================================================================
   scoring/content.py (content-presence checks)
   =================================================================== -/

/-- CONTENT_FUZZY_THRESHOLD of scoring/content.py (0.70). -/
def content_fuzzy_threshold : ℚ := 7/10

/-- score_title of scoring/content.py. -/
def score_title (full_text expected_title : String) : String × ℚ :=
  let r := contains_fuzzy full_text expected_title content_fuzzy_threshold
  (if r.1 then FOUND else NOT_FOUND, r.2)

/-- score_authors of scoring/content.py: any author found in the metadata
snippet, tracking the best ratio. -/
def score_authors (full_text : String) (expected_authors : List String) :
    String × ℚ :=
  let snippet := String.mk (full_text.data.take metadata_search_chars)
  let acc := expected_authors.foldl (fun acc author =>
    let r := contains_fuzzy snippet author content_fuzzy_threshold
    (acc.1 || r.1, max acc.2 r.2)) (false, (0 : ℚ))
  (if acc.1 then FOUND else NOT_FOUND, acc.2)

/-- score_doi of scoring/content.py: exact substring test, not applicable when
the ground truth has no DOI. -/
def score_doi (full_text : String) (expected_doi : Option String) : String :=
  match expected_doi with
  | none => NOT_APPLICABLE
  | some d => if occursIn d.data full_text.data then FOUND else NOT_FOUND

/-- score_abstract of scoring/content.py. -/
def score_abstract (full_text : String) (expected : Option String) :
    String × ℚ :=
  match expected with
  | none => (NOT_APPLICABLE, 0)
  | some s =>
    let r := contains_fuzzy full_text s content_fuzzy_threshold
    (if r.1 then FOUND else NOT_FOUND, r.2)

/-- Model of the regex word class backslash-w (ASCII fragment). -/
def isWordChar (c : Char) : Bool := c.isAlphanum || c == '_'

/-- Word-boundary search used by score_references: the word occurs with no
word character adjacent on either side. -/
def wordOccurs (word text : List Char) : Bool :=
  (List.range (text.length + 1)).any fun p =>
    ((text.drop p).take word.length == word)
    && (p == 0 || !isWordChar (text.getD (p - 1) ' '))
    && (p + word.length == text.length || !isWordChar (text.getD (p + word.length) ' '))

/-- score_references of scoring/content.py: a single-parameter function that
looks for a references or bibliography word, case-insensitively. -/
def score_references (full_text : String) : String :=
  let lowered := full_text.data.map pyLowerChar
  if wordOccurs "references".data lowered then FOUND
  else if wordOccurs "bibliography".data lowered then FOUND
  else NOT_FOUND

/-- score_key_passage of scoring/content.py. -/
def score_key_passage (full_text expected_passage : String) : String × ℚ :=
  let r := contains_fuzzy full_text expected_passage content_fuzzy_threshold
  (if r.1 then FOUND else NOT_FOUND, r.2)

/- ===================================================================
   quality_scoring.py (content-presence aggregation)
   =================================================================== -/

/-- Ground-truth entry fields consumed by the content-presence scorer of
quality_scoring.py. -/
structure GroundTruthEntry where
  title : String
  authors : List String
  doi : Option String
  abstract_first_sentence : Option String
  has_references : Option Bool
  key_passage : String
deriving DecidableEq

/-- The applicable results: every presence status except NOT_APPLICABLE
(line 126 of quality_scoring.py). -/
def applicable_results (results : List String) : List String :=
  results.filter (fun v => v != NOT_APPLICABLE)

/-- quality_score of quality_scoring.py: FOUND count among applicable
results (line 127). -/
def quality_score_of (results : List String) : ℕ :=
  (applicable_results results).countP (fun v => v == FOUND)

/-- quality_score_max of quality_scoring.py: count of applicable results
(line 128). -/
def quality_score_max_of (results : List String) : ℕ :=
  (applicable_results results).length

/-- The call score_references(full_text, gt.get(\"has_references\")) at line
117 of quality_scoring.py.  score_references of scoring/content.py accepts a
single parameter, so the Python call raises TypeError before any matching
runs; the embedding returns that error unconditionally. -/
def score_references_call (full_text : String) (has_references : Option Bool) :
    Except String String :=
  Except.error
    "TypeError: score_references() takes 1 positional argument but 2 were given"

/-- Partial record produced by the content-presence scorer. -/
structure ContentPresenceRecord where
  title_found : String
  title_ratio : ℚ
  authors_found : String
  authors_ratio : ℚ
  doi_found : String
  abstract_found : String
  abstract_ratio : ℚ
  references_found : String
  key_passage_found : String
  key_passage_ratio : ℚ
  quality_score : ℕ
  quality_score_max : ℕ
  quality_score_pct : Option ℚ
deriving DecidableEq

/-- The content-presence scorer of quality_scoring.py (the function named
with a leading underscore at lines 109-143), including the failing
two-argument score_references call of line 117. -/
def score_content_presence (full_text : String) (gt : GroundTruthEntry) :
    Except String ContentPresenceRecord :=
  let title := score_title full_text gt.title
  let authors := score_authors full_text gt.authors
  let doi_found := score_doi full_text gt.doi
  let abstract := score_abstract full_text gt.abstract_first_sentence
  match score_references_call full_text gt.has_references with
  | Except.error e => Except.error e
  | Except.ok references_found =>
    let key_passage := score_key_passage full_text gt.key_passage
    let presence_results := [title.1, authors.1, doi_found,
      abstract.1, references_found, key_passage.1]
    let quality_score := quality_score_of presence_results
    let quality_score_max := quality_score_max_of presence_results
    Except.ok
      { title_found := title.1, title_ratio := title.2,
        authors_found := authors.1, authors_ratio := authors.2,
        doi_found := doi_found,
        abstract_found := abstract.1, abstract_ratio := abstract.2,
        references_found := references_found,
        key_passage_found := key_passage.1, key_passage_ratio := key_passage.2,
        quality_score := quality_score,
        quality_score_max := quality_score_max,
        quality_score_pct :=
          if quality_score_max ≠ 0 then
            some (pyRound 1 ((quality_score : ℚ) / (quality_score_max : ℚ) * 100))
          else none }

/- ===================================================================
   fidelity/constants.py
   =================================================================== -/

/-- WINNER_MARGIN_THRESHOLD of fidelity/constants.py (0.015). -/
def WINNER_MARGIN_THRESHOLD : ℚ := 15/1000

/-- RECALL_FLOOR of fidelity/constants.py (0.80). -/
def RECALL_FLOOR : ℚ := 4/5

/-- GLOBAL_REGRESSION_MAX of fidelity/constants.py (0.0). -/
def GLOBAL_REGRESSION_MAX : ℚ := 0

/-- EARLY_MATCH_BREAK_THRESHOLD of fidelity/constants.py (0.98). -/
def early_match_break_threshold : ℚ := 98/100

/-- AMBIGUOUS_MATCH_LOWER_BOUND of fidelity/constants.py (0.70). -/
def ambiguous_match_lower_bound : ℚ := 7/10

/-- MIN_SENTENCE_LEN of fidelity/constants.py. -/
def min_sentence_len : ℕ := 30

/- ===================================================================
   fidelity/gates.py

   Leaderboard rows are modelled after the values the command reads from
   the CSV: the parser_config key together with the to_float parse of the
   fidelity_composite_avg and content_recall_avg columns (an ill-formed
   or absent number is None).  The printed output and the JSON report
   file are outside the model; the GateResult record carries the values
   the command computes and writes.
   =================================================================== -/

/-- One leaderboard row as consumed by command_gates. -/
structure LBRow where
  parser_config : String
  fidelity_composite_avg : Option ℚ
  content_recall_avg : Option ℚ
deriving DecidableEq

/-- The value stored under a configuration key by the dict comprehension of
lines 23-24 of fidelity/gates.py: present when some row has the key, holding
the composite of the last such row. -/
def dictValue (rows : List LBRow) (cfg : String) : Option (Option ℚ) :=
  ((rows.filter (fun r => r.parser_config == cfg)).getLast?).map
    (fun r => r.fidelity_composite_avg)

/-- sorted(set(baseline) intersect set(candidate)) of line 26 of
fidelity/gates.py. -/
def commonConfigs (baseline candidate : List LBRow) : List String :=
  ((baseline.map (fun r => r.parser_config)).dedup.filter
    (fun c => c ∈ candidate.map (fun r => r.parser_config))).insertionSort
    (fun a b => a ≤ b)

/-- The per-configuration deltas of lines 30-38 of fidelity/gates.py,
skipping configurations where either side parses to None. -/
def gateDeltas (baseline candidate : List LBRow) : List ℚ :=
  (commonConfigs baseline candidate).filterMap (fun cfg =>
    match dictValue baseline cfg, dictValue candidate cfg with
    | some (some b), some (some c) => some (c - b)
    | _, _ => none)

/-- The rounded per-configuration rows collected for the report
(lines 39-46 of fidelity/gates.py). -/
def gateDeltaRows (baseline candidate : List LBRow) :
    List (String × ℚ × ℚ × ℚ) :=
  (commonConfigs baseline candidate).filterMap (fun cfg =>
    match dictValue baseline cfg, dictValue candidate cfg with
    | some (some b), some (some c) =>
      some (cfg, pyRound 4 b, pyRound 4 c, pyRound 4 (c - b))
    | _, _ => none)

/-- Gate report values computed by command_gates. -/
structure GateResult where
  deltas : List ℚ
  config_deltas : List (String × ℚ × ℚ × ℚ)
  global_delta : ℚ
  global_regression_pass : Bool
  min_recall : Option ℚ
  recall_floor_pass : Bool
  accepted : Bool
deriving DecidableEq

/-- command_gates of fidelity/gates.py: fatal errors for disjoint
configurations and for an empty delta list, otherwise the two gates. -/
def command_gates (baseline candidate : List LBRow) :
    Except String GateResult :=
  if commonConfigs baseline candidate = [] then
    Except.error
      "No overlapping parser_config values between baseline and candidate leaderboards."
  else
    let deltas := gateDeltas baseline candidate
    if deltas = [] then
      Except.error "Unable to compute global delta from provided files."
    else
      let global_delta := deltas.sum / (deltas.length : ℚ)
      let pass_global := decide (GLOBAL_REGRESSION_MAX ≤ global_delta)
      let recall_values := candidate.filterMap (fun r => r.content_recall_avg)
      let min_recall := match recall_values with
        | [] => none
        | x :: xs => some (xs.foldl min x)
      let pass_recall := match min_recall with
        | none => true
        | some m => decide (RECALL_FLOOR ≤ m)
      Except.ok
        { deltas := deltas,
          config_deltas := gateDeltaRows baseline candidate,
          global_delta := global_delta,
          global_regression_pass := pass_global,
          min_recall := min_recall,
          recall_floor_pass := pass_recall,
          accepted := pass_global && pass_recall }

/- ===================================================================
   fidelity/routing.py

   In command_routing every candidate row of a doc type carries the
   rounded mean composite of a nonempty group of rows that all parse to
   a number, but the code still guards each read with an or-0.0; the
   model keeps the Option together with that guard.
   =================================================================== -/

/-- One per-configuration candidate of a doc type, as built by
command_routing (lines 30-41 of fidelity/routing.py). -/
structure RouteCand where
  parser_config : String
  fidelity_composite_avg : Option ℚ
deriving DecidableEq

/-- The sort key (r or-0.0) of line 50 of fidelity/routing.py. -/
def routeKey (r : RouteCand) : ℚ := r.fidelity_composite_avg.getD 0

/-- Per-doc-type routing decision record. -/
structure RoutingDecision where
  recommended : RouteCand
  fallback : Option RouteCand
  winner_margin : Option ℚ
  low_confidence : Bool
deriving DecidableEq

/-- The per-doc-type body of command_routing (lines 49-63 of
fidelity/routing.py): stable descending sort by composite, top entry
recommended, runner-up as fallback, margin and low-confidence flag.  The
source indexes a nonempty list; the empty case returns none. -/
def routeDocType (candidates : List RouteCand) : Option RoutingDecision :=
  match candidates.insertionSort (fun a b => routeKey b ≤ routeKey a) with
  | [] => none
  | best :: rest =>
    let fallback := rest.head?
    let margin := fallback.map (fun f => routeKey best - routeKey f)
    some
      { recommended := best,
        fallback := fallback,
        winner_margin := margin.map (pyRound 4),
        low_confidence := match margin with
          | some m => decide (m < WINNER_MARGIN_THRESHOLD)
          | none => false }

/- ===================================================================
   fidelity/taxonomy.py (sentence-matching core)
   =================================================================== -/

/-- Sentence list of the taxonomy extractor: split the normalized
reference-stripped body, then keep sentences of at least
MIN_SENTENCE_LEN characters (lines 127-128 of fidelity/taxonomy.py). -/
def taxSentences (t : String) : List String :=
  (split_sentences (prepare_body t)).filter
    (fun s => min_sentence_len ≤ s.length)

/-- The corpus index map built by a dict comprehension (lines 131-132 of
fidelity/taxonomy.py): for duplicated sentences the last index wins. -/
def lastIndexOf (corpus : List String) (s : String) : Option ℕ :=
  ((corpus.enum.filter (fun p => p.2 == s)).getLast?).map (fun p => p.1)

/-- Scan loop of the sentence best-match search of fidelity/taxonomy.py:
length-mismatch skip, strictly-better updates, early break at 0.98. -/
def taxLoop (s : String) : List (ℕ × String) → ℚ × ℤ → ℚ × ℤ
  | [], best => best
  | p :: rest, best =>
    if (((s.length : ℤ) - (p.2.length : ℤ)).natAbs : ℚ) >
        (s.length : ℚ) * length_mismatch_bound then
      taxLoop s rest best
    else
      let r := ratioScore s.data p.2.data
      let best' := if best.1 < r then (r, (p.1 : ℤ)) else best
      if early_match_break_threshold ≤ best'.1 then best'
      else taxLoop s rest best'

/-- The sentence best-match search of fidelity/taxonomy.py (lines 36-58,
named with a leading underscore there): exact membership short-circuits to
ratio 1 at the mapped index, otherwise the scan loop runs from (0, -1). -/
def sentence_best_match (s : String) (corpus : List String) : ℚ × ℤ :=
  match lastIndexOf corpus s with
  | some i => (1, (i : ℤ))
  | none => taxLoop s corpus.enum ((0 : ℚ), (-1 : ℤ))

/-- The matched extracted positions collected by the reference loop of
lines 134-140 of fidelity/taxonomy.py, in reference order. -/
def taxMatchedPositions (extracted reference : String) : List ℕ :=
  (taxSentences reference).filterMap (fun s =>
    let m := sentence_best_match s (taxSentences extracted)
    if sentence_match_threshold ≤ m.1 ∧ 0 ≤ m.2 then some m.2.toNat else none)

/-- The adjacent-inversion loop of lines 149-152 of fidelity/taxonomy.py,
carrying the previous position. -/
def adjInvLoop : ℕ → List ℕ → ℕ
  | _, [] => 0
  | prev, y :: ys => (if y < prev then 1 else 0) + adjInvLoop y ys

/-- order_violation count as the taxonomy loop computes it. -/
def taxOrderViolation : List ℕ → ℕ
  | [] => 0
  | x :: xs => adjInvLoop x xs

/-- Sentence-matching counts of the taxonomy extractor (the fields of
TaxonomyCounts filled by lines 126-152 of fidelity/taxonomy.py; the
line-level and paragraph-level counts are computed by separate helpers
that no claim concerns). -/
structure TaxMatchCore where
  total_ref_sentences : ℕ
  total_ext_sentences : ℕ
  missing_content : ℕ
  extra_content : ℕ
  ambiguous_hunks : ℕ
  order_violation : ℕ
  matched_positions : List ℕ
deriving DecidableEq

/-- The sentence-matching part of the per-pair taxonomy function of
fidelity/taxonomy.py (lines 121-152): the reference loop collecting matched
positions and missing sentences, the extracted loop counting extra and
ambiguous sentences, and the monotonic order-violation scan. -/
def taxonomy_match_core (extracted reference : String) : TaxMatchCore :=
  let ext_sentences := taxSentences extracted
  let ref_sentences := taxSentences reference
  let refAcc := ref_sentences.foldl (fun (acc : List ℕ × ℕ) s =>
    let m := sentence_best_match s ext_sentences
    if sentence_match_threshold ≤ m.1 ∧ 0 ≤ m.2 then
      (acc.1 ++ [m.2.toNat], acc.2)
    else (acc.1, acc.2 + 1)) ([], 0)
  let extAcc := ext_sentences.foldl (fun (acc : ℕ × ℕ) s =>
    let m := sentence_best_match s ref_sentences
    if m.1 < sentence_match_threshold then
      (acc.1 + 1,
       if ambiguous_match_lower_bound ≤ m.1 then acc.2 + 1 else acc.2)
    else acc) (0, 0)
  { total_ref_sentences := ref_sentences.length,
    total_ext_sentences := ext_sentences.length,
    missing_content := refAcc.2,
    extra_content := extAcc.1,
    ambiguous_hunks := extAcc.2,
    order_violation := taxOrderViolation refAcc.1,
    matched_positions := refAcc.1 }

/-- Reviewer-facing restatement of the adjacent-inversion count: the number
of consecutive pairs of the list whose second entry is strictly smaller. -/
def adjacentInversions (l : List ℕ) : ℕ :=
  (l.zip l.tail).countP (fun p => decide (p.2 < p.1))

/- ===================================================================
   Helper lemmas
   =================================================================== -/

/-- A map sums to the list length when every image is 1. -/
theorem sum_map_eq_length_of_all_one {l : List String} {f : String → ℚ}
    (h : ∀ s ∈ l, f s = 1) : (l.map f).sum = l.length := by
  induction l with
  | nil => simp
  | cons x xs ih =>
    simp only [List.map_cons, List.sum_cons, List.length_cons]
    rw [h x (List.mem_cons_self x xs), ih (fun s hs => h s (List.mem_cons_of_mem _ hs))]
    push_cast
    ring

/-- A map sums to zero when every image is 0. -/
theorem sum_map_eq_zero_of_all_zero {l : List String} {f : String → ℚ}
    (h : ∀ s ∈ l, f s = 0) : (l.map f).sum = 0 := by
  induction l with
  | nil => simp
  | cons x xs ih =>
    simp only [List.map_cons, List.sum_cons]
    rw [h x (List.mem_cons_self x xs), ih (fun s hs => h s (List.mem_cons_of_mem _ hs))]
    ring

unseal Rat.add Rat.mul Rat.inv Rat.sub in
/-- Rounding fixes the endpoint 1. -/
theorem pyRound_four_one : pyRound 4 1 = 1 := by decide

unseal Rat.add Rat.mul Rat.inv Rat.sub in
/-- Rounding fixes the endpoint 0. -/
theorem pyRound_four_zero : pyRound 4 0 = 0 := by decide

/-- The running adjacent-inversion loop counts the descending consecutive
pairs of the list extended with the carried previous element. -/
theorem adjInvLoop_eq_countP (l : List ℕ) (prev : ℕ) :
    adjInvLoop prev l =
      ((prev :: l).zip l).countP (fun p => decide (p.2 < p.1)) := by
  induction l generalizing prev with
  | nil => simp [adjInvLoop]
  | cons y ys ih =>
    simp only [adjInvLoop, List.zip_cons_cons, List.countP_cons, ih y,
      decide_eq_true_eq]
    by_cases h : y < prev <;> simp [h] <;> omega

/-- The order-violation loop of the taxonomy extractor equals the
adjacent-inversion count. -/
theorem taxOrderViolation_eq_adjacentInversions (l : List ℕ) :
    taxOrderViolation l = adjacentInversions l := by
  cases l with
  | nil => rfl
  | cons x xs =>
    simp [taxOrderViolation, adjacentInversions, adjInvLoop_eq_countP]

/-- Comparison against a running minimum fold. -/
theorem le_foldl_min_iff (c x : ℚ) (xs : List ℚ) :
    c ≤ xs.foldl min x ↔ c ≤ x ∧ ∀ q ∈ xs, c ≤ q := by
  induction xs generalizing x with
  | nil => simp
  | cons y ys ih =>
    simp only [List.foldl_cons, ih (min x y), le_min_iff, List.mem_cons]
    constructor
    · rintro ⟨⟨h1, h2⟩, h3⟩
      exact ⟨h1, fun q hq => hq.elim (fun e => e ▸ h2) (h3 q)⟩
    · rintro ⟨h1, h2⟩
      exact ⟨⟨h1, h2 y (Or.inl rfl)⟩, fun q hq => h2 q (Or.inr hq)⟩

/- ===================================================================
   C1: composite fidelity
   =================================================================== -/

unseal Rat.add Rat.mul Rat.inv Rat.sub in
/-- C1 counterexample: because of the rounding to four digits,
compute_fidelity_composite is not exactly linear with the fixed weights:
at text_similarity one hundred-thousandth the composite is 0 while the
weighted sum is not. -/
theorem compute_fidelity_composite_not_linear :
    compute_fidelity_composite (1/100000) 0 0 (some 0) ≠
      FIDELITY_WEIGHT_SIMILARITY * (1/100000) + FIDELITY_WEIGHT_RECALL * 0 +
      FIDELITY_WEIGHT_PRECISION * 0 + FIDELITY_WEIGHT_ORDER * 0 := by
  decide

unseal Rat.add Rat.mul Rat.inv Rat.sub in
/-- C1 (amended): compute_fidelity_composite is the rounding to four digits
of the linear combination with the fixed weights 0.35, 0.25, 0.25, 0.15,
which sum to 1; an undefined order term is treated as 0 for all inputs;
composite(1,1,1,1) = 1 and composite(0,0,0,undefined) = 0. -/
theorem compute_fidelity_composite_spec :
    FIDELITY_WEIGHT_SIMILARITY + FIDELITY_WEIGHT_RECALL +
      FIDELITY_WEIGHT_PRECISION + FIDELITY_WEIGHT_ORDER = 1
  ∧ (∀ s r p : ℚ, compute_fidelity_composite s r p none =
      compute_fidelity_composite s r p (some 0))
  ∧ compute_fidelity_composite 1 1 1 (some 1) = 1
  ∧ compute_fidelity_composite 0 0 0 none = 0
  ∧ (∀ s r p o : ℚ, compute_fidelity_composite s r p (some o) =
      pyRound 4 (FIDELITY_WEIGHT_SIMILARITY * s + FIDELITY_WEIGHT_RECALL * r +
        FIDELITY_WEIGHT_PRECISION * p + FIDELITY_WEIGHT_ORDER * o)) :=
  ⟨by decide, fun s r p => rfl, by decide, by decide, fun s r p o => rfl⟩

/- ===================================================================
   C4: the two-argument score_references call
   =================================================================== -/

/-- C4: the content-presence scorer of quality_scoring.py raises TypeError on
every input, because line 117 passes two arguments to the one-parameter
score_references of scoring/content.py.  No input reaches the point where a
no-match outcome could be reported. -/
theorem score_content_presence_always_raises (full_text : String)
    (gt : GroundTruthEntry) :
    score_content_presence full_text gt = Except.error
      "TypeError: score_references() takes 1 positional argument but 2 were given" :=
  rfl

/- ===================================================================
   C7: bounded quality score over applicable checks
   =================================================================== -/

/-- C7: the quality score counts FOUND among applicable results only and its
maximum counts the applicable results, so the score never exceeds the
maximum, a NOT_APPLICABLE result changes neither count, and a missing DOI
ground truth makes the DOI check NOT_APPLICABLE. -/
theorem quality_score_bounded_spec (results : List String) (t : String) :
    quality_score_of results ≤ quality_score_max_of results
  ∧ quality_score_of (NOT_APPLICABLE :: results) = quality_score_of results
  ∧ quality_score_max_of (NOT_APPLICABLE :: results) =
      quality_score_max_of results
  ∧ score_doi t none = NOT_APPLICABLE := by
  refine ⟨List.countP_le_length _, ?_, ?_, rfl⟩ <;>
    simp [quality_score_of, quality_score_max_of, applicable_results]

/- ===================================================================
   C9: strip_references_section without a marker
   =================================================================== -/

/-- A marker whose search comes back empty falls through to the rest of the
marker list. -/
theorem stripRefsGo_cons_none {t : String} {lower m : List Char} {cutoff : ℕ}
    {ms : List (List Char)} (h : pyRfind lower m cutoff = none) :
    stripRefsGo t lower cutoff (m :: ms) = stripRefsGo t lower cutoff ms := by
  simp [stripRefsGo, h]

/-- C9: strip_references_section is a total function, and when no marker
occurs in the lowercased text at or after the cutoff at forty percent of the
length, it returns its input unchanged. -/
theorem strip_references_section_no_marker (t : String)
    (h : ∀ m ∈ referenceMarkers, ∀ p, p ≤ t.data.length →
        refsCutoff t.data.length ≤ p →
        ((t.data.map pyLowerChar).drop p).take m.length ≠ m) :
    strip_references_section t = t := by
  have key : ∀ m ∈ referenceMarkers,
      pyRfind (t.data.map pyLowerChar) m (refsCutoff t.data.length) = none := by
    intro m hm
    have hfil : ((List.range ((t.data.map pyLowerChar).length + 1)).filter
        (fun p => decide (refsCutoff t.data.length ≤ p) &&
          (((t.data.map pyLowerChar).drop p).take m.length == m))) = [] := by
      rw [List.filter_eq_nil_iff]
      intro p hp
      rw [List.mem_range, List.length_map] at hp
      simp only [Bool.and_eq_true, decide_eq_true_eq, beq_iff_eq, not_and]
      exact fun hc => h m hm p (Nat.lt_succ_iff.mp hp) hc
    unfold pyRfind
    rw [hfil]
    rfl
  have k1 := key _ (show "\nreferences\n".data ∈ referenceMarkers by
    simp [referenceMarkers])
  have k2 := key _ (show "\n# references".data ∈ referenceMarkers by
    simp [referenceMarkers])
  have k3 := key _ (show "\nbibliography\n".data ∈ referenceMarkers by
    simp [referenceMarkers])
  have k4 := key _ (show "\n# bibliography".data ∈ referenceMarkers by
    simp [referenceMarkers])
  show stripRefsGo t (t.data.map pyLowerChar) (refsCutoff t.data.length)
      referenceMarkers = t
  rw [show referenceMarkers = ["\nreferences\n".data, "\n# references".data,
    "\nbibliography\n".data, "\n# bibliography".data] from rfl]
  rw [stripRefsGo_cons_none k1, stripRefsGo_cons_none k2,
    stripRefsGo_cons_none k3, stripRefsGo_cons_none k4]
  rfl

/-- C9 witness: the empty string and a markerless sentence pass through
unchanged. -/
theorem strip_references_section_no_marker_witness :
    strip_references_section "" = "" ∧
    strip_references_section "The quick brown fox jumps over the lazy dog" =
      "The quick brown fox jumps over the lazy dog" :=
  ⟨strip_references_section_no_marker "" (by decide),
   strip_references_section_no_marker
     "The quick brown fox jumps over the lazy dog" (by decide)⟩

/- ===================================================================
   C10: empty sentence lists in recall and precision
   =================================================================== -/

/-- C10: a reference without sentences makes content recall 1 regardless of
the extraction, an extraction without sentences makes content precision 0,
and on two empty texts recall is 1 while precision is 0. -/
theorem recall_precision_empty_sentences (e r : String) :
    (split_sentences (prepare_body r) = [] →
      compute_content_recall e r sentence_match_threshold = 1)
  ∧ (split_sentences (prepare_body e) = [] →
      compute_content_precision e r sentence_match_threshold = 0)
  ∧ compute_content_recall "" "" sentence_match_threshold = 1
  ∧ compute_content_precision "" "" sentence_match_threshold = 0 := by
  refine ⟨fun h => ?_, fun h => ?_, by decide, by decide⟩
  · simp [compute_content_recall, h]
  · simp [compute_content_precision, h]

/-- C10 witness: a sentence-less reference with a nonempty extraction, and a
sentence-less extraction with a nonempty reference. -/
theorem recall_precision_empty_sentences_witness :
    compute_content_recall "abc" "" sentence_match_threshold = 1 ∧
    compute_content_precision "" "abc" sentence_match_threshold = 0 :=
  ⟨(recall_precision_empty_sentences "abc" "").1 (by decide),
   (recall_precision_empty_sentences "" "abc").2.1 (by decide)⟩

/- ===================================================================
   C5: verbatim equality and fully unmatched texts
   =================================================================== -/

/-- C5 counterexample: two equal (empty) texts normalize to equal bodies, yet
content precision is 0, not 1, because neither side yields a sentence. -/
theorem recall_precision_verbatim_claim_false :
    prepare_body "" = prepare_body "" ∧
    compute_content_precision "" "" sentence_match_threshold = 0 ∧
    compute_content_precision "" "" sentence_match_threshold ≠ 1 := by
  refine ⟨rfl, by decide, by decide⟩

/-- C5 (amended): when both texts yield at least one body sentence, verbatim
equality after normalization gives recall and precision 1, and when no
sentence on either side reaches the threshold both are 0. -/
theorem recall_precision_verbatim_and_disjoint (e r : String) :
    (prepare_body e = prepare_body r →
      split_sentences (prepare_body r) ≠ [] →
      compute_content_recall e r sentence_match_threshold = 1 ∧
      compute_content_precision e r sentence_match_threshold = 1)
  ∧ (split_sentences (prepare_body r) ≠ [] →
      split_sentences (prepare_body e) ≠ [] →
      (∀ s ∈ split_sentences (prepare_body r),
        best_match_ratio s (split_sentences (prepare_body e)) <
          sentence_match_threshold) →
      (∀ s ∈ split_sentences (prepare_body e),
        best_match_ratio s (split_sentences (prepare_body r)) <
          sentence_match_threshold) →
      compute_content_recall e r sentence_match_threshold = 0 ∧
      compute_content_precision e r sentence_match_threshold = 0) := by
  constructor
  · intro heq hne
    have hExt : split_sentences (prepare_body e) = split_sentences (prepare_body r) := by
      rw [heq]
    have hlen : ((split_sentences (prepare_body r)).length : ℚ) ≠ 0 :=
      Nat.cast_ne_zero.mpr (fun h0 => hne (List.length_eq_zero.mp h0))
    have hall : ∀ s ∈ split_sentences (prepare_body r),
        (if sentence_match_threshold ≤
            best_match_ratio s (split_sentences (prepare_body r))
         then best_match_ratio s (split_sentences (prepare_body r)) else 0) = 1 := by
      intro s hs
      have hb : best_match_ratio s (split_sentences (prepare_body r)) = 1 := by
        unfold best_match_ratio
        rw [if_pos hs]
      rw [hb, if_pos (by norm_num [sentence_match_threshold])]
    constructor
    · simp only [compute_content_recall, hExt, if_neg hne]
      rw [sum_map_eq_length_of_all_one hall, div_self hlen]
      exact pyRound_four_one
    · simp only [compute_content_precision, hExt, if_neg hne]
      rw [sum_map_eq_length_of_all_one hall, div_self hlen]
      exact pyRound_four_one
  · intro hner hnee hbr hbe
    have hallr : ∀ s ∈ split_sentences (prepare_body r),
        (if sentence_match_threshold ≤
            best_match_ratio s (split_sentences (prepare_body e))
         then best_match_ratio s (split_sentences (prepare_body e)) else 0) = 0 := by
      intro s hs
      rw [if_neg (not_le.mpr (hbr s hs))]
    have halle : ∀ s ∈ split_sentences (prepare_body e),
        (if sentence_match_threshold ≤
            best_match_ratio s (split_sentences (prepare_body r))
         then best_match_ratio s (split_sentences (prepare_body r)) else 0) = 0 := by
      intro s hs
      rw [if_neg (not_le.mpr (hbe s hs))]
    constructor
    · simp only [compute_content_recall, if_neg hner, if_neg hnee]
      rw [sum_map_eq_zero_of_all_zero hallr, zero_div]
      exact pyRound_four_zero
    · simp only [compute_content_precision, if_neg hner, if_neg hnee]
      rw [sum_map_eq_zero_of_all_zero halle, zero_div]
      exact pyRound_four_zero

set_option maxRecDepth 8192 in
set_option maxHeartbeats 1600000 in
unseal Rat.add Rat.mul Rat.inv Rat.sub in
/-- C5 witness: two single-sentence texts whose lengths differ enough that
the length-mismatch guard rejects every comparison. -/
theorem recall_precision_verbatim_and_disjoint_witness :
    compute_content_recall
      "aaaaaaaaaaaaaaaaaaaaaaaaaaaaaa."
      "bbbbbbbbbbbbbbbbbbbbbbbbbbbbbbbbbbbbbbbbbbbbbbbbbbbbbbbbbbbbbb."
      sentence_match_threshold = 0 ∧
    compute_content_precision
      "aaaaaaaaaaaaaaaaaaaaaaaaaaaaaa."
      "bbbbbbbbbbbbbbbbbbbbbbbbbbbbbbbbbbbbbbbbbbbbbbbbbbbbbbbbbbbbbb."
      sentence_match_threshold = 0 :=
  (recall_precision_verbatim_and_disjoint
    "aaaaaaaaaaaaaaaaaaaaaaaaaaaaaa."
    "bbbbbbbbbbbbbbbbbbbbbbbbbbbbbbbbbbbbbbbbbbbbbbbbbbbbbbbbbbbbbb.").2
    (by decide) (by decide) (by decide) (by decide)

/- ===================================================================
   C6: order score
   =================================================================== -/

set_option maxRecDepth 8192 in
set_option maxHeartbeats 1600000 in
unseal Rat.add Rat.mul Rat.inv Rat.sub in
/-- C6 counterexample: three reference sentences all match the single first
extracted sentence, so fewer than three extracted sentences are matched, yet
compute_order_score is defined (it returns 0, not none). -/
theorem compute_order_score_claim_false :
    (((orderMatchedPositions
        "aaaaaaaaaaaaaaaaaaaaaaaaaaaaaa. bbbbbbbbbbbbbbbbbbbbbbbbbbbbbb. bbbbbbbbbbbbbbbbbbbbbbbbbbbbbb."
        "aaaaaaaaaaaaaaaaaaaaaaaaaaaaaa. aaaaaaaaaaaaaaaaaaaaaaaaaaaaaa. aaaaaaaaaaaaaaaaaaaaaaaaaaaaaa."
        sentence_match_threshold).map Prod.snd).dedup.length = 1)
  ∧ compute_order_score
      "aaaaaaaaaaaaaaaaaaaaaaaaaaaaaa. bbbbbbbbbbbbbbbbbbbbbbbbbbbbbb. bbbbbbbbbbbbbbbbbbbbbbbbbbbbbb."
      "aaaaaaaaaaaaaaaaaaaaaaaaaaaaaa. aaaaaaaaaaaaaaaaaaaaaaaaaaaaaa. aaaaaaaaaaaaaaaaaaaaaaaaaaaaaa."
      sentence_match_threshold = some 0 := by
  constructor
  · decide
  · decide

set_option maxRecDepth 8192 in
set_option maxHeartbeats 1600000 in
/-- C6 (amended): compute_order_score is none exactly when either side has
fewer than three sentences or fewer than three reference sentences matched;
otherwise it is the concordant-pair fraction times the coverage; and exact
sentence equality short-circuits the per-sentence search to the first equal
extracted position. -/
theorem compute_order_score_spec (e r : String) :
    (compute_order_score e r sentence_match_threshold = none ↔
      (split_sentences (prepare_body r)).length < min_matched_sentences ∨
      (split_sentences (prepare_body e)).length < min_matched_sentences ∨
      (orderMatchedPositions e r sentence_match_threshold).length <
        min_matched_sentences)
  ∧ (min_matched_sentences ≤ (split_sentences (prepare_body r)).length →
     min_matched_sentences ≤ (split_sentences (prepare_body e)).length →
     min_matched_sentences ≤
        (orderMatchedPositions e r sentence_match_threshold).length →
     compute_order_score e r sentence_match_threshold =
       some (pyRound 4
         (concordantFraction (orderMatchedPositions e r sentence_match_threshold) *
           (((orderMatchedPositions e r sentence_match_threshold).length : ℚ) /
             ((split_sentences (prepare_body r)).length : ℚ)))))
  ∧ (∀ s l, s ∈ l → orderBestMatch s l =
      (1, (l.findIdx (fun x => x == s) : ℤ))) := by
  refine ⟨?_, ?_, ?_⟩
  · by_cases h1 : (split_sentences (prepare_body r)).length < min_matched_sentences ∨
        (split_sentences (prepare_body e)).length < min_matched_sentences
    · simp only [compute_order_score, if_pos h1]
      exact iff_of_true trivial (h1.elim Or.inl (fun hb => Or.inr (Or.inl hb)))
    · by_cases h2 : (orderMatchedPositions e r sentence_match_threshold).length <
          min_matched_sentences
      · simp only [compute_order_score, if_neg h1, if_pos h2]
        exact iff_of_true trivial (Or.inr (Or.inr h2))
      · simp only [compute_order_score, if_neg h1, if_neg h2]
        refine iff_of_false (Option.some_ne_none _) ?_
        rintro (hA | hB | hC)
        · exact h1 (Or.inl hA)
        · exact h1 (Or.inr hB)
        · exact h2 hC
  · intro hr he hm
    have h1 : ¬ ((split_sentences (prepare_body r)).length < min_matched_sentences ∨
        (split_sentences (prepare_body e)).length < min_matched_sentences) := by
      push_neg
      exact ⟨hr, he⟩
    simp only [compute_order_score, if_neg h1, if_neg (not_lt.mpr hm)]
  · intro s l hs
    unfold orderBestMatch
    rw [if_pos hs]

set_option maxRecDepth 8192 in
set_option maxHeartbeats 1600000 in
unseal Rat.add Rat.mul Rat.inv Rat.sub in
/-- C6 witness: three distinct sentences compared with themselves give a
defined order score. -/
theorem compute_order_score_spec_witness :
    compute_order_score
      "aaaaaaaaaaaaaaaaaaaaaaaaaaaaaa. bbbbbbbbbbbbbbbbbbbbbbbbbbbbbb. cccccccccccccccccccccccccccccc."
      "aaaaaaaaaaaaaaaaaaaaaaaaaaaaaa. bbbbbbbbbbbbbbbbbbbbbbbbbbbbbb. cccccccccccccccccccccccccccccc."
      sentence_match_threshold =
      some (pyRound 4
        (concordantFraction (orderMatchedPositions
            "aaaaaaaaaaaaaaaaaaaaaaaaaaaaaa. bbbbbbbbbbbbbbbbbbbbbbbbbbbbbb. cccccccccccccccccccccccccccccc."
            "aaaaaaaaaaaaaaaaaaaaaaaaaaaaaa. bbbbbbbbbbbbbbbbbbbbbbbbbbbbbb. cccccccccccccccccccccccccccccc."
            sentence_match_threshold) *
          (((orderMatchedPositions
            "aaaaaaaaaaaaaaaaaaaaaaaaaaaaaa. bbbbbbbbbbbbbbbbbbbbbbbbbbbbbb. cccccccccccccccccccccccccccccc."
            "aaaaaaaaaaaaaaaaaaaaaaaaaaaaaa. bbbbbbbbbbbbbbbbbbbbbbbbbbbbbb. cccccccccccccccccccccccccccccc."
            sentence_match_threshold).length : ℚ) /
            ((split_sentences (prepare_body
            "aaaaaaaaaaaaaaaaaaaaaaaaaaaaaa. bbbbbbbbbbbbbbbbbbbbbbbbbbbbbb. cccccccccccccccccccccccccccccc.")).length : ℚ)))) :=
  ((compute_order_score_spec
    "aaaaaaaaaaaaaaaaaaaaaaaaaaaaaa. bbbbbbbbbbbbbbbbbbbbbbbbbbbbbb. cccccccccccccccccccccccccccccc."
    "aaaaaaaaaaaaaaaaaaaaaaaaaaaaaa. bbbbbbbbbbbbbbbbbbbbbbbbbbbbbb. cccccccccccccccccccccccccccccc.").2.1)
    (by decide) (by decide) (by decide)

/- ===================================================================
   C8: taxonomy order violations
   =================================================================== -/

/-- The reference loop of the taxonomy extractor accumulates exactly the
filterMap of the per-sentence matches over the reference sentences. -/
theorem taxRefFold_positions (ext : List String) (refS : List String) :
    ∀ acc : List ℕ × ℕ,
      (refS.foldl (fun acc s =>
        let m := sentence_best_match s ext
        if sentence_match_threshold ≤ m.1 ∧ 0 ≤ m.2 then
          (acc.1 ++ [m.2.toNat], acc.2)
        else (acc.1, acc.2 + 1)) acc).1 =
      acc.1 ++ refS.filterMap (fun s =>
        let m := sentence_best_match s ext
        if sentence_match_threshold ≤ m.1 ∧ 0 ≤ m.2 then some m.2.toNat
        else none) := by
  induction refS with
  | nil => intro acc; simp
  | cons s ss ih =>
    intro acc
    by_cases hc : sentence_match_threshold ≤ (sentence_best_match s ext).1 ∧
        0 ≤ (sentence_best_match s ext).2
    · simp only [List.foldl_cons, List.filterMap_cons, if_pos hc, ih,
        List.append_assoc, List.singleton_append]
    · simp only [List.foldl_cons, List.filterMap_cons, if_neg hc, ih]

set_option maxRecDepth 8192 in
set_option maxHeartbeats 1600000 in
/-- C8: the order_violation count of the taxonomy extractor equals the number
of adjacent-pair inversions of the matched extracted positions; the matched
positions are collected one per reference sentence matched at or above the
threshold, in reference order; and exact equality short-circuits the
per-sentence search to ratio 1 at the index-map position. -/
theorem taxonomy_order_violation_spec (e r : String) :
    (taxonomy_match_core e r).order_violation =
      adjacentInversions ((taxonomy_match_core e r).matched_positions)
  ∧ (taxonomy_match_core e r).matched_positions = taxMatchedPositions e r
  ∧ (∀ s corpus i, lastIndexOf corpus s = some i →
      sentence_best_match s corpus = (1, (i : ℤ))) := by
  refine ⟨?_, ?_, ?_⟩
  · simp only [taxonomy_match_core]
    exact taxOrderViolation_eq_adjacentInversions _
  · have hfold := taxRefFold_positions (taxSentences e) (taxSentences r) ([], 0)
    simp only [List.nil_append] at hfold
    simp only [taxonomy_match_core, taxMatchedPositions]
    exact hfold
  · intro s corpus i h
    unfold sentence_best_match
    rw [h]

set_option maxRecDepth 8192 in
set_option maxHeartbeats 1600000 in
/-- C8 witness: a one-sentence corpus containing the query resolves through
the exact-equality short circuit. -/
theorem taxonomy_order_violation_spec_witness :
    sentence_best_match "abc" ["abc"] = ((1 : ℚ), (0 : ℤ)) :=
  (taxonomy_order_violation_spec "" "").2.2 "abc" ["abc"] 0 (by decide)


/- ===================================================================
   C2: regression gates
   =================================================================== -/

/-- Decidable equality of gate command results, for evaluating the command on
concrete leaderboards. -/
instance {ε α : Type} [DecidableEq ε] [DecidableEq α] : DecidableEq (Except ε α)
  | Except.error x, Except.error y =>
    if h : x = y then isTrue (h ▸ rfl)
    else isFalse (fun hc => h (Except.error.inj hc))
  | Except.error _, Except.ok _ => isFalse (fun hc => Except.noConfusion hc)
  | Except.ok _, Except.error _ => isFalse (fun hc => Except.noConfusion hc)
  | Except.ok x, Except.ok y =>
    if h : x = y then isTrue (h ▸ rfl)
    else isFalse (fun hc => h (Except.ok.inj hc))

/-- C2: command_gates fails with an explicit error when baseline and
candidate share no configuration; a produced report carries one delta per
configuration present in both sides with both composites defined, its global
delta is the mean of those deltas, and the candidate is accepted exactly when
the global delta is at least the floor and every defined candidate recall
meets the recall floor. -/
theorem command_gates_spec (baseline candidate : List LBRow) :
    (commonConfigs baseline candidate = [] →
      command_gates baseline candidate = Except.error
        "No overlapping parser_config values between baseline and candidate leaderboards.")
  ∧ (∀ rep, command_gates baseline candidate = Except.ok rep →
      rep.deltas = gateDeltas baseline candidate ∧
      rep.deltas ≠ [] ∧
      (∀ cfg ∈ commonConfigs baseline candidate, ∀ b c : ℚ,
        dictValue baseline cfg = some (some b) →
        dictValue candidate cfg = some (some c) →
        (c - b) ∈ rep.deltas) ∧
      rep.global_delta = rep.deltas.sum / (rep.deltas.length : ℚ) ∧
      (rep.accepted = true ↔
        GLOBAL_REGRESSION_MAX ≤ rep.global_delta ∧
        ∀ q ∈ candidate.filterMap (fun row => row.content_recall_avg),
          RECALL_FLOOR ≤ q)) := by
  constructor
  · intro h
    simp only [command_gates, if_pos h]
  · intro rep hrep
    by_cases hc : commonConfigs baseline candidate = []
    · rw [command_gates, if_pos hc] at hrep
      exact absurd hrep (by simp)
    · by_cases hd : gateDeltas baseline candidate = []
      · rw [command_gates, if_neg hc] at hrep
        simp only [if_pos hd] at hrep
        exact absurd hrep (by simp)
      · rw [command_gates, if_neg hc] at hrep
        simp only [if_neg hd] at hrep
        rw [Except.ok.injEq] at hrep
        subst hrep
        refine ⟨rfl, hd, ?_, rfl, ?_⟩
        · intro cfg hcfg b c hb hcv
          exact List.mem_filterMap.mpr ⟨cfg, hcfg, by rw [hb, hcv]⟩
        · simp only [Bool.and_eq_true, decide_eq_true_eq]
          cases hrv : candidate.filterMap (fun row => row.content_recall_avg) with
          | nil => simp
          | cons x xs =>
            simp only [le_foldl_min_iff, List.forall_mem_cons, decide_eq_true_eq]

unseal Rat.add Rat.mul Rat.inv Rat.sub in
set_option maxRecDepth 8192 in
set_option maxHeartbeats 1600000 in
/-- C2 witness: disjoint leaderboards raise the fatal error, and a candidate
improving a shared configuration with high recall is accepted. -/
theorem command_gates_spec_witness :
    command_gates [⟨"X", some (7/10), none⟩] [⟨"Y", some (72/100), some (9/10)⟩] =
      Except.error
        "No overlapping parser_config values between baseline and candidate leaderboards."
  ∧ (GateResult.mk [1/50] [("X", 7/10, 18/25, 1/50)] (1/50) true
      (some (9/10)) true true).accepted = true :=
  ⟨(command_gates_spec [⟨"X", some (7/10), none⟩]
      [⟨"Y", some (72/100), some (9/10)⟩]).1 (by decide),
   (((command_gates_spec [⟨"X", some (7/10), none⟩]
      [⟨"X", some (72/100), some (9/10)⟩]).2
      (GateResult.mk [1/50] [("X", 7/10, 18/25, 1/50)] (1/50) true
        (some (9/10)) true true) (by decide)).2.2.2.2).mpr (by decide)⟩

/- ===================================================================
   C3: routing recommendation
   =================================================================== -/

/-- C3: for a nonempty candidate list the routing decision recommends a
candidate of maximal mean composite, the fallback is the runner-up of the
stable descending sort (absent exactly for a single candidate, in which case
the margin is null and the flag is off), the margin is the rounded difference
of the two keys, and low confidence holds exactly when that difference is
below the winner-margin threshold. -/
theorem command_routing_decision_spec (cands : List RouteCand)
    (h : cands ≠ []) :
    ∃ d rest, routeDocType cands = some d ∧
      cands.Perm (d.recommended :: rest) ∧
      d.fallback = rest.head? ∧
      (∀ c ∈ cands, routeKey c ≤ routeKey d.recommended) ∧
      (d.fallback = none ↔ cands.length = 1) ∧
      (d.fallback = none → d.winner_margin = none ∧ d.low_confidence = false) ∧
      (∀ f, d.fallback = some f →
        f ∈ cands ∧ (∀ c ∈ rest, routeKey c ≤ routeKey f) ∧
        d.winner_margin = some (pyRound 4 (routeKey d.recommended - routeKey f)) ∧
        (d.low_confidence = true ↔
          routeKey d.recommended - routeKey f < WINNER_MARGIN_THRESHOLD)) := by
  haveI hTot : IsTotal RouteCand (fun a b => routeKey b ≤ routeKey a) :=
    ⟨fun a b => le_total (routeKey b) (routeKey a)⟩
  haveI hTrans : IsTrans RouteCand (fun a b => routeKey b ≤ routeKey a) :=
    ⟨fun _ _ _ h1 h2 => le_trans h2 h1⟩
  have hperm := List.perm_insertionSort
    (fun a b => routeKey b ≤ routeKey a) cands
  have hsorted := List.sorted_insertionSort
    (fun a b => routeKey b ≤ routeKey a) cands
  cases hms : cands.insertionSort (fun a b => routeKey b ≤ routeKey a) with
  | nil =>
    rw [hms] at hperm
    exact absurd hperm.symm.eq_nil h
  | cons best rest =>
    rw [hms] at hperm hsorted
    have hpair := List.pairwise_cons.mp hsorted
    refine ⟨{ recommended := best,
              fallback := rest.head?,
              winner_margin :=
                (rest.head?.map (fun f => routeKey best - routeKey f)).map (pyRound 4),
              low_confidence :=
                match rest.head?.map (fun f => routeKey best - routeKey f) with
                | some m => decide (m < WINNER_MARGIN_THRESHOLD)
                | none => false }, rest, ?_, hperm.symm, rfl, ?_, ?_, ?_, ?_⟩
    · simp only [routeDocType, hms]
    · intro c hcmem
      rcases List.mem_cons.mp (hperm.mem_iff.mpr hcmem) with hcb | hcr
      · exact le_of_eq (by rw [hcb])
      · exact hpair.1 c hcr
    · constructor
      · intro hf
        have hf' : rest.head? = none := hf
        have hrest : rest = [] := by
          cases rest with
          | nil => rfl
          | cons a l => simp at hf'
        rw [← hperm.length_eq, hrest]
        rfl
      · intro hlen
        have hr0 : rest.length = 0 := by
          have hl := hperm.length_eq
          rw [hlen] at hl
          simpa using hl
        show rest.head? = none
        rw [List.length_eq_zero.mp hr0]
        rfl
    · intro hf
      have hf' : rest.head? = none := hf
      constructor
      · show (rest.head?.map (fun f => routeKey best - routeKey f)).map (pyRound 4) = none
        rw [hf']
        rfl
      · show (match rest.head?.map (fun f => routeKey best - routeKey f) with
            | some m => decide (m < WINNER_MARGIN_THRESHOLD)
            | none => false) = false
        rw [hf']
        rfl
    · intro f hf
      have hf' : rest.head? = some f := hf
      have hfr : f ∈ rest := by
        cases rest with
        | nil => simp at hf'
        | cons a l =>
          simp only [List.head?_cons, Option.some.injEq] at hf'
          rw [← hf']
          exact List.mem_cons_self a l
      refine ⟨hperm.mem_iff.mp (List.mem_cons_of_mem best hfr), ?_, ?_, ?_⟩
      · intro c hcr
        cases rest with
        | nil => simp at hf'
        | cons a l =>
          simp only [List.head?_cons, Option.some.injEq] at hf'
          subst hf'
          rcases List.mem_cons.mp hcr with hc1 | hc2
          · exact le_of_eq (by rw [hc1])
          · exact (List.pairwise_cons.mp hpair.2).1 c hc2
      · show (rest.head?.map (fun g => routeKey best - routeKey g)).map (pyRound 4) =
            some (pyRound 4 (routeKey best - routeKey f))
        rw [hf']
        rfl
      · show (match rest.head?.map (fun g => routeKey best - routeKey g) with
            | some m => decide (m < WINNER_MARGIN_THRESHOLD)
            | none => false) = true ↔
            routeKey best - routeKey f < WINNER_MARGIN_THRESHOLD
        rw [hf']
        simp only [Option.map_some']
        exact decide_eq_true_iff

/-- C3 witness: two candidates at 0.90 and 0.84 produce a decision meeting
every clause of the routing specification. -/
theorem command_routing_decision_spec_witness :
    ∃ d rest,
      routeDocType [⟨"A", some (9/10)⟩, ⟨"B", some (84/100)⟩] = some d ∧
      List.Perm [⟨"A", some (9/10)⟩, ⟨"B", some (84/100)⟩]
        (d.recommended :: rest) ∧
      d.fallback = rest.head? ∧
      (∀ c ∈ [RouteCand.mk "A" (some (9/10)), RouteCand.mk "B" (some (84/100))],
        routeKey c ≤ routeKey d.recommended) ∧
      (d.fallback = none ↔
        ([RouteCand.mk "A" (some (9/10)),
          RouteCand.mk "B" (some (84/100))] : List RouteCand).length = 1) ∧
      (d.fallback = none → d.winner_margin = none ∧ d.low_confidence = false) ∧
      (∀ f, d.fallback = some f →
        f ∈ [RouteCand.mk "A" (some (9/10)), RouteCand.mk "B" (some (84/100))] ∧
        (∀ c ∈ rest, routeKey c ≤ routeKey f) ∧
        d.winner_margin = some (pyRound 4 (routeKey d.recommended - routeKey f)) ∧
        (d.low_confidence = true ↔
          routeKey d.recommended - routeKey f < WINNER_MARGIN_THRESHOLD)) :=
  command_routing_decision_spec
    [⟨"A", some (9/10)⟩, ⟨"B", some (84/100)⟩] (by simp)
